import Mathlib

/-!
Verification development for the chat2api-CLI repository: a shallow
embedding of the credential store (`src/chat.py`, class `Config`), the
chat-turn loop fragment of `main`, the streaming response reader of
`send_message`, the endpoint switcher `switch_endpoint`, and the
API-key-rewrite middleware (`src/middleware/apikey_mapper.py`).
Python dicts loaded from JSON are modelled as insertion-ordered
association lists; `json.loads` is modelled by an executable JSON parser
producing `JVal`; fallible effects (file writes, network probes) are
modelled by explicit outcome parameters.
-/

namespace Chat2API

/-- A parsed JSON value, as produced by Python's `json.loads`.  Numbers keep
their source lexeme (the claims never inspect numeric magnitudes); objects
are insertion-ordered association lists with duplicate keys collapsed
last-value-wins, as Python dicts do. -/
inductive JVal where
  | null : JVal
  | bool : Bool → JVal
  | num : String → JVal
  | str : String → JVal
  | arr : List JVal → JVal
  | obj : List (String × JVal) → JVal

/-- First-match lookup in an insertion-ordered association list (Python dict
indexing / `dict.get`; objects built by the parser have unique keys). -/
def alistLookup {α : Type} : List (String × α) → String → Option α
  | [], _ => none
  | (k, v) :: rest, key => if k = key then some v else alistLookup rest key

/-- Python dict assignment `d[k] = v`: replace the value in place when the
key exists, else append the new binding. -/
def alistSet {α : Type} : List (String × α) → String → α → List (String × α)
  | [], k, v => [(k, v)]
  | (k', v') :: rest, k, v =>
      if k' = k then (k, v) :: rest else (k', v') :: alistSet rest k v

/-- Python dict deletion `del d[k]`: remove the first (unique) binding. -/
def alistErase {α : Type} : List (String × α) → String → List (String × α)
  | [], _ => []
  | (k', v') :: rest, k =>
      if k' = k then rest else (k', v') :: alistErase rest k

/-- Python `s.startswith(pre)`. -/
def strStartsWith (s pre : String) : Bool := pre.toList.isPrefixOf s.toList

/-- Python slicing `s[n:]`. -/
def strDrop (s : String) (n : Nat) : String := ⟨s.toList.drop n⟩

/-- Python `s.lower()` (ASCII header names). -/
def pyLower (s : String) : String := ⟨s.toList.map Char.toLower⟩

/-- Python `needle in hay` on strings. -/
def containsSubstr (hay needle : String) : Bool :=
  go needle.toList hay.toList
where
  go (needle : List Char) : List Char → Bool
    | [] => needle.isEmpty
    | c :: t => needle.isPrefixOf (c :: t) || go needle t

/-- JSON whitespace accepted between tokens by `json.loads`. -/
def isJsonWs (c : Char) : Bool := c = ' ' || c = '\t' || c = '\n' || c = '\r'

def skipWs (cs : List Char) : List Char := cs.dropWhile isJsonWs

def isHexDigit (c : Char) : Bool :=
  c.isDigit || ('a' ≤ c && c ≤ 'f') || ('A' ≤ c && c ≤ 'F')

def hexVal (c : Char) : Nat :=
  if c.isDigit then c.toNat - '0'.toNat
  else if 'a' ≤ c then c.toNat - 'a'.toNat + 10
  else c.toNat - 'A'.toNat + 10

/-- Single-character JSON string escapes. -/
def escChar (c : Char) : Option Char :=
  if c = '"' then some '"'
  else if c = '\\' then some '\\'
  else if c = '/' then some '/'
  else if c = 'b' then some (Char.ofNat 8)
  else if c = 'f' then some (Char.ofNat 12)
  else if c = 'n' then some '\n'
  else if c = 'r' then some '\r'
  else if c = 't' then some '\t'
  else none

/-- Parse the body of a JSON string after the opening quote; returns the
decoded characters and the remaining input.  A `\uXXXX` escape is decoded
to one scalar (surrogate pairs are not recombined; no claim depends on
them).  Raw control characters are rejected as in strict `json.loads`. -/
def parseStrBody : List Char → Option (List Char × List Char)
  | [] => none
  | '"' :: rest => some ([], rest)
  | '\\' :: 'u' :: h1 :: h2 :: h3 :: h4 :: rest =>
      if isHexDigit h1 && isHexDigit h2 && isHexDigit h3 && isHexDigit h4 then
        match parseStrBody rest with
        | some (s, r) =>
            some (Char.ofNat (((hexVal h1 * 16 + hexVal h2) * 16 + hexVal h3) * 16 + hexVal h4) :: s, r)
        | none => none
      else none
  | '\\' :: c :: rest =>
      match escChar c with
      | some e =>
          match parseStrBody rest with
          | some (s, r) => some (e :: s, r)
          | none => none
      | none => none
  | c :: rest =>
      if c.toNat < 32 then none
      else
        match parseStrBody rest with
        | some (s, r) => some (c :: s, r)
        | none => none

def takeDigits (cs : List Char) : List Char × List Char :=
  (cs.takeWhile Char.isDigit, cs.dropWhile Char.isDigit)

/-- Optional exponent part of a JSON number; `lex` is the lexeme so far. -/
def parseExpPart (lex : List Char) (cs : List Char) : Option (List Char × List Char) :=
  match cs with
  | c :: t =>
      if c = 'e' || c = 'E' then
        match t with
        | s :: t2 =>
            if s = '+' || s = '-' then
              let (ds, r) := takeDigits t2
              if ds = [] then none else some (lex ++ c :: s :: ds, r)
            else
              let (ds, r) := takeDigits t
              if ds = [] then none else some (lex ++ c :: ds, r)
        | [] => none
      else some (lex, cs)
  | [] => some (lex, [])

/-- Optional fraction then exponent of a JSON number. -/
def parseFracExp (lex : List Char) (cs : List Char) : Option (List Char × List Char) :=
  match cs with
  | '.' :: t =>
      let (ds, r) := takeDigits t
      if ds = [] then none else parseExpPart (lex ++ '.' :: ds) r
  | _ => parseExpPart lex cs

/-- JSON number grammar `-?(0|[1-9][0-9]*)(.[0-9]+)?([eE][+-]?[0-9]+)?`;
returns the lexeme and the rest of the input. -/
def parseNumber (cs : List Char) : Option (List Char × List Char) :=
  let (sign, cs1) := match cs with
    | '-' :: t => (['-'], t)
    | _ => (([] : List Char), cs)
  match cs1 with
  | '0' :: t => parseFracExp (sign ++ ['0']) t
  | c :: t =>
      if c.isDigit then
        let (ds, r) := takeDigits t
        parseFracExp (sign ++ c :: ds) r
      else none
  | [] => none

mutual

/-- Recursive-descent JSON value parser, fuelled (`json.loads` core). -/
def parseVal : Nat → List Char → Option (JVal × List Char)
  | 0, _ => none
  | fuel + 1, cs =>
    match skipWs cs with
    | '{' :: t =>
        match skipWs t with
        | '}' :: r => some (.obj [], r)
        | t' => parseMembers fuel [] t'
    | '[' :: t =>
        match skipWs t with
        | ']' :: r => some (.arr [], r)
        | t' => parseItems fuel [] t'
    | '"' :: t =>
        match parseStrBody t with
        | some (s, r) => some (.str ⟨s⟩, r)
        | none => none
    | 't' :: 'r' :: 'u' :: 'e' :: r => some (.bool true, r)
    | 'f' :: 'a' :: 'l' :: 's' :: 'e' :: r => some (.bool false, r)
    | 'n' :: 'u' :: 'l' :: 'l' :: r => some (.null, r)
    | 'N' :: 'a' :: 'N' :: r => some (.num "NaN", r)
    | 'I' :: 'n' :: 'f' :: 'i' :: 'n' :: 'i' :: 't' :: 'y' :: r => some (.num "Infinity", r)
    | '-' :: 'I' :: 'n' :: 'f' :: 'i' :: 'n' :: 'i' :: 't' :: 'y' :: r => some (.num "-Infinity", r)
    | cs' =>
        match parseNumber cs' with
        | some (lex, r) => some (.num ⟨lex⟩, r)
        | none => none

/-- Members of a JSON object after the opening brace (non-empty case);
duplicate keys collapse last-value-wins as Python dicts do. -/
def parseMembers : Nat → List (String × JVal) → List Char → Option (JVal × List Char)
  | 0, _, _ => none
  | fuel + 1, acc, cs =>
    match skipWs cs with
    | '"' :: t =>
        match parseStrBody t with
        | some (k, r1) =>
            match skipWs r1 with
            | ':' :: r2 =>
                match parseVal fuel r2 with
                | some (v, r3) =>
                    match skipWs r3 with
                    | ',' :: r4 => parseMembers fuel (alistSet acc ⟨k⟩ v) r4
                    | '}' :: r4 => some (.obj (alistSet acc ⟨k⟩ v), r4)
                    | _ => none
                | none => none
            | _ => none
        | none => none
    | _ => none

/-- Items of a JSON array after the opening bracket (non-empty case). -/
def parseItems : Nat → List JVal → List Char → Option (JVal × List Char)
  | 0, _, _ => none
  | fuel + 1, acc, cs =>
      match parseVal fuel cs with
      | some (v, r) =>
          match skipWs r with
          | ',' :: r2 => parseItems fuel (acc ++ [v]) r2
          | ']' :: r2 => some (.arr (acc ++ [v]), r2)
          | _ => none
      | none => none

end

/-- Model of Python `json.loads`: parse one value and require only
whitespace to remain, else fail (`Extra data` errors). -/
def Json.parse (s : String) : Option JVal :=
  match parseVal (s.toList.length + 1) s.toList with
  | some (v, rest) => if skipWs rest = [] then some v else none
  | none => none

mutual

/-- Python `repr` of a parsed JSON value.  Needed because the middleware
formats whatever value it finds into the rewritten header. -/
def pyRepr : JVal → String
  | .null => "None"
  | .bool true => "True"
  | .bool false => "False"
  | .num l => l
  | .str s => "'" ++ s ++ "'"
  | .arr xs => "[" ++ pyReprItems xs ++ "]"
  | .obj kvs => "\x7b" ++ pyReprFields kvs ++ "\x7d"

/-- Comma-separated `repr` of list items. -/
def pyReprItems : List JVal → String
  | [] => ""
  | [x] => pyRepr x
  | x :: y :: xs => pyRepr x ++ ", " ++ pyReprItems (y :: xs)

/-- Comma-separated `repr` of dict fields. -/
def pyReprFields : List (String × JVal) → String
  | [] => ""
  | [(k, v)] => "'" ++ k ++ "': " ++ pyRepr v
  | (k, v) :: f :: fs => "'" ++ k ++ "': " ++ pyRepr v ++ ", " ++ pyReprFields (f :: fs)

end

/-- Python `str` of a parsed JSON value (used by f-string interpolation). -/
def pyStr (v : JVal) : String :=
  match v with
  | .str s => s
  | v => pyRepr v

/-- Python truthiness of a parsed JSON value (`if x:`). -/
def pyTruthy (v : JVal) : Bool :=
  match v with
  | .null => false
  | .bool b => b
  | .str s => s ≠ ""
  | .arr xs => !xs.isEmpty
  | .obj kvs => !kvs.isEmpty
  | .num lex =>
      -- a JSON number is falsy exactly when its mantissa digits are all zero
      !((lex.toList.takeWhile (fun c => c != 'e' && c != 'E')).all
          (fun c => c == '0' || c == '.' || c == '-'))

/-- Python `len` of a parsed JSON value: defined for strings, lists and
dicts; `none` models the `TypeError` raised on other types. -/
def pyLen (v : JVal) : Option Nat :=
  match v with
  | .str s => some s.length
  | .arr xs => some xs.length
  | .obj kvs => some kvs.length
  | _ => none

/-- Python `v[0]` on the value of the `choices` field: first element of a
list, first character of a string; `none` models the `KeyError` raised when
indexing a parsed-JSON dict (whose keys are strings) with `0`. -/
def pyIndexZero (v : JVal) : Option JVal :=
  match v with
  | .arr (x :: _) => some x
  | .str s =>
      match s.toList with
      | c :: _ => some (.str ⟨[c]⟩)
      | [] => none
  | _ => none

/-! ## Streaming response reader (`send_message`, `src/chat.py` 1296-1347) -/

/-- `extract_actual_model` (`src/chat.py` 1121-1129). -/
def extract_actual_model (response_model requested_model : String) : String :=
  if response_model = "" then requested_model
  else if response_model = requested_model then response_model
  else response_model

/-- Mutable state of the streaming loop: `full_response`, `actual_model`,
and the sequence of incremental prints surfaced to the terminal. -/
structure ReaderState where
  acc : String
  actualModel : String
  emitted : List String
deriving DecidableEq

/-- Outcome of processing one stream line: continue with a new state, stop
(`[DONE]` sentinel), or abort with an exception not caught by the inner
`except json.JSONDecodeError` (it propagates to the outer handler). -/
inductive StepOut where
  | cont : ReaderState → StepOut
  | halt : ReaderState → StepOut
  | crash : ReaderState → StepOut
deriving DecidableEq

/-- The state carried by a step outcome. -/
def StepOut.state : StepOut → ReaderState
  | .cont s => s
  | .halt s => s
  | .crash s => s

/-- Body of the per-chunk processing for a successfully parsed JSON payload
(`src/chat.py` 1332-1342).  The `model` update is only reached inside the
`choices`-present-and-non-empty guard; a non-string `model` value is left
in place (the source's type annotations assume strings).  `crash` models
the `TypeError`/`AttributeError`/`KeyError` paths on ill-shaped payloads;
a crash on the length test happens before the model update. -/
def stepChunk (requested : String) (st : ReaderState) (j : JVal) : StepOut :=
  match j with
  | .obj kvs =>
    match alistLookup kvs "choices" with
    | none => .cont st
    | some cv =>
      match pyLen cv with
      | none => .crash st
      | some n =>
        if n = 0 then .cont st
        else
          let st1 :=
            match alistLookup kvs "model" with
            | some (.str m) => { st with actualModel := extract_actual_model m requested }
            | _ => st
          match pyIndexZero cv with
          | none => .crash st1
          | some first =>
            match first with
            | .obj fkvs =>
              match alistLookup fkvs "delta" with
              | none => .cont st1
              | some (.obj dkvs) =>
                let content := (alistLookup dkvs "content").getD (.str "")
                if pyTruthy content then
                  match content with
                  | .str s =>
                      .cont { st1 with acc := st1.acc ++ s, emitted := st1.emitted ++ [s] }
                  | _ => .crash st1
                else .cont st1
              | some _ => .crash st1
            | _ => .crash st1
  | .str s =>
      -- membership is a substring test on strings; a hit then crashes on
      -- the string-by-string indexing
      if containsSubstr s "choices" then .crash st else .cont st
  | .arr xs =>
      -- membership on a list compares elements; a hit then crashes on the
      -- list-by-string indexing
      if xs.any (fun x => match x with | .str s => s = "choices" | _ => false)
      then .crash st else .cont st
  | .num _ => .crash st
  | .bool _ => .crash st
  | .null => .crash st

/-- One iteration of `async for chunk in response.aiter_lines()`
(`src/chat.py` 1325-1344). -/
def processLine (requested : String) (st : ReaderState) (line : String) : StepOut :=
  if strStartsWith line "data: " then
    let chunk_data := strDrop line 6
    if chunk_data = "[DONE]" then .halt st
    else
      match Json.parse chunk_data with
      | none => .cont st
      | some j => stepChunk requested st j
  else .cont st

/-- The streaming loop over all received lines; the Bool records whether an
uncaught exception aborted it. -/
def runReader (requested : String) (st : ReaderState) : List String → Bool × ReaderState
  | [] => (false, st)
  | l :: ls =>
      match processLine requested st l with
      | .cont st' => runReader requested st' ls
      | .halt st' => (false, st')
      | .crash st' => (true, st')

/-- Return contract of the streaming branch of `send_message` on a 200
response: the accumulated text (or `none` when the outer `except` fired,
which returns `None, model` with the requested model), the actual model,
and the emitted increments. -/
structure StreamResult where
  text : Option String
  model : String
  emitted : List String
deriving DecidableEq

/-- The streaming branch of `send_message` (`src/chat.py` 1296-1347,
1398-1408), given the lines of a 200 response body. -/
def send_message_stream (requested : String) (lines : List String) : StreamResult :=
  match runReader requested ⟨"", requested, []⟩ lines with
  | (true, st) => ⟨none, requested, st.emitted⟩
  | (false, st) => ⟨some st.acc, st.actualModel, st.emitted⟩

/-! ## API-key-rewrite middleware (`src/middleware/apikey_mapper.py`) -/

/-- The search loop of `map_apikey_to_token` over the API-key entries
(`apikey_mapper.py` 51-63).  An entry that is not a dict, or whose `key`
field differs from the searched key, is skipped; on a key match the entry's
`token_name` (default `'auto'`) selects a token by name, else the `'auto'`
sentinel selects the first token; otherwise the loop continues.  A
non-string, non-hashable `token_name` (list/dict) raises `TypeError` on the
membership test, which the enclosing handler converts to the original key. -/
def mapLoop (tokens : List (String × JVal)) (api_key : String) :
    List (String × JVal) → String
  | [] => api_key
  | (_, data) :: rest =>
    match data with
    | .obj kvs =>
      (match alistLookup kvs "key" with
       | some (.str k) =>
         if k = api_key then
           match (alistLookup kvs "token_name").getD (.str "auto") with
           | .str tn =>
             (match alistLookup tokens tn with
              | some v => pyStr v
              | none =>
                if tn = "auto" then
                  match tokens with
                  | [] => mapLoop tokens api_key rest
                  | (_, v0) :: _ => pyStr v0
                else mapLoop tokens api_key rest)
           | .arr _ => api_key
           | .obj _ => api_key
           | _ => mapLoop tokens api_key rest
         else mapLoop tokens api_key rest
       | _ => mapLoop tokens api_key rest)
    | _ => mapLoop tokens api_key rest

/-- `map_apikey_to_token` (`apikey_mapper.py` 39-69) on the two parsed
mapping files.  A non-`sk-` key returns unchanged before any lookup.  A
non-dict top-level apikeys value raises on `.items()` and the handler
returns the original key; with a non-dict tokens value every execution
path either raises (handled the same way) or falls through the loop, so
the original key is returned as well. -/
def map_apikey_to_token (apikeysJ tokensJ : JVal) (api_key : String) : String :=
  if ¬ strStartsWith api_key "sk-" then api_key
  else
    match apikeysJ, tokensJ with
    | .obj aks, .obj toks => mapLoop toks api_key aks
    | _, _ => api_key

/-- Starlette `Headers.get`: first header whose lowercased name matches. -/
def headerGet (headers : List (String × String)) (key : String) : Option String :=
  match headers with
  | [] => none
  | (n, v) :: rest => if pyLower n = pyLower key then some v else headerGet rest key

/-- `dispatch` (`apikey_mapper.py` 71-104): read the Authorization header,
and when it carries a Bearer `sk-` key whose mapping differs, rewrite every
`authorization` header in the scope to the mapped token; the request always
proceeds to the handler with the returned headers. -/
def dispatch (apikeysJ tokensJ : JVal) (headers : List (String × String)) :
    List (String × String) :=
  let auth_header := (headerGet headers "authorization").getD ""
  if strStartsWith auth_header "Bearer " then
    let original_token := strDrop auth_header 7
    if strStartsWith original_token "sk-" then
      let mapped := map_apikey_to_token apikeysJ tokensJ original_token
      if mapped = original_token then headers
      else headers.map (fun p =>
        if pyLower p.1 = "authorization" then (p.1, "Bearer " ++ mapped) else p)
    else headers
  else headers

/-- `load_mappings` (`apikey_mapper.py` 20-37): `none` models a missing
file (treated as an empty dict); a parse failure on either file raises
inside the single `try` and both collections degrade to empty. -/
def load_mappings (akFile tkFile : Option String) : JVal × JVal :=
  let akParsed : Option JVal :=
    match akFile with
    | none => some (.obj [])
    | some s => Json.parse s
  let tkParsed : Option JVal :=
    match tkFile with
    | none => some (.obj [])
    | some s => Json.parse s
  match akParsed, tkParsed with
  | some a, some t => (a, t)
  | _, _ => (.obj [], .obj [])

/-- The middleware end to end: load the mapping files fresh and dispatch. -/
def dispatchFromFiles (akFile tkFile : Option String)
    (headers : List (String × String)) : List (String × String) :=
  dispatch (load_mappings akFile tkFile).1 (load_mappings akFile tkFile).2 headers

/-! ## Credential store (`Config`, `src/chat.py` 96-254) -/

/-- `Config.add_token` (`src/chat.py` 156-169): upsert the token and save
`tokens.json`, then append the raw value to `data/token.txt`.  The append
has no exception handler, so `logWriteFails` makes the call raise
(`Except.error`); the token collection was already updated and persisted
when that happens.  The trailing server sync catches its own errors. -/
def add_token (tokens : List (String × String)) (logLines : List String)
    (logWriteFails : Bool) (name token : String) :
    Except (List (String × String) × List String) (List (String × String) × List String) :=
  let tokens' := alistSet tokens name token
  if logWriteFails then .error (tokens', logLines)
  else .ok (tokens', logLines ++ [token])

/-- `Config.remove_token` (`src/chat.py` 171-180). -/
def remove_token (tokens : List (String × String)) (name : String) :
    Bool × List (String × String) :=
  match alistLookup tokens name with
  | some _ => (true, alistErase tokens name)
  | none => (false, tokens)

/-- `Config.get_active_token` (`src/chat.py` 193-203): the stored name is
used only when truthy and present; otherwise the first token value, if
any.  `active = none` models both a missing `active_token` key and a null
value (both falsy). -/
def get_active_token (active : Option String) (tokens : List (String × String)) :
    Option String :=
  let hit : Option String :=
    match active with
    | some a => if a = "" then none else alistLookup tokens a
    | none => none
  match hit with
  | some v => some v
  | none =>
    match tokens with
    | [] => none
    | (_, v) :: _ => some v

/-- `Config.generate_apikey` (`src/chat.py` 225-243): the key is the fixed
prefix plus the random part, and the recorded `token_name` is
`self.config.get('active_token', 'auto')` — the `'auto'` default applies
only when the key is absent from the config dict.  The config dict is
modelled as parsed JSON; randomness and the timestamp are parameters. -/
def generate_apikey (config : List (String × JVal))
    (apikeys : List (String × JVal)) (name random_part created : String) :
    String × List (String × JVal) :=
  let api_key := "sk-" ++ random_part
  let entry : JVal := .obj
    [ ("key", .str api_key)
    , ("created", .str created)
    , ("token_name", (alistLookup config "active_token").getD (.str "auto")) ]
  (api_key, alistSet apikeys name entry)

/-! ## Chat turn (`main`, `src/chat.py` 1685-1694) -/

/-- One conversation-history entry. -/
structure ChatMsg where
  role : String
  content : String
deriving DecidableEq

/-- One free-text turn of the main loop (`src/chat.py` 1685-1694): the user
entry is appended before `send_message` runs; only a truthy response
appends an assistant entry and adopts the reported model.  `response` and
`actualModel` are the pair `send_message` returned. -/
def chatTurn (history : List ChatMsg) (userInput : String)
    (response : Option String) (actualModel currentModel : String) :
    List ChatMsg × String :=
  let history1 := history ++ [⟨"user", userInput⟩]
  match response with
  | some r =>
      if r ≠ "" then
        (history1 ++ [⟨"assistant", r⟩],
         if actualModel ≠ currentModel then actualModel else currentModel)
      else (history1, currentModel)
  | none => (history1, currentModel)

/-! ## Endpoint switch (`switch_endpoint`, `src/chat.py` 535-684) -/

/-- Outcome of one `requests.get` probe: a status-and-body response, or one
of the exception classes the source distinguishes. -/
inductive Probe where
  | resp : Nat → String → Probe
  | timeout : Probe
  | connError : Probe
  | exc : Probe
deriving DecidableEq

/-- Result of `switch_endpoint`: the returned boolean, the endpoint value
persisted by `config.set` (if any), and how many probe requests were
issued. -/
structure SwitchOutcome where
  ok : Bool
  persisted : Option String
  calls : Nat
deriving DecidableEq

/-- `normalize_endpoint` (`src/chat.py` 84-88), applied by `config.set`. -/
def normalize_endpoint (e : String) : String :=
  if e ≠ "" then ⟨(e.toList.reverse.dropWhile (· = '/')).reverse⟩ else e

/-- `switch_endpoint` (`src/chat.py` 535-684): reject a non-http(s) scheme
before any request; probe `/health`, persist on 200; on 403 probe
`/v1/models` and persist only when that returns 403 with `RBAC` in the
body; every other outcome fails without persisting.  `health` and `models`
are the transport's responses to the two probes. -/
def switch_endpoint (url : String) (health models : Probe) : SwitchOutcome :=
  if ¬ (strStartsWith url "http://" || strStartsWith url "https://") then
    ⟨false, none, 0⟩
  else
    match health with
    | .resp code _ =>
        if code = 200 then ⟨true, some (normalize_endpoint url), 1⟩
        else if code = 403 then
          match models with
          | .resp mcode body =>
              if mcode = 403 && containsSubstr body "RBAC" then
                ⟨true, some (normalize_endpoint url), 2⟩
              else ⟨false, none, 2⟩
          | _ => ⟨false, none, 2⟩
        else ⟨false, none, 1⟩
    | _ => ⟨false, none, 1⟩

/-! ## Statement-support predicates and sample data -/

/-- Whether an API-key entry value matches a searched key: it is a dict
whose `key` field equals the searched string (the loop guard of
`map_apikey_to_token`). -/
def entryMatches (d : JVal) (v : String) : Bool :=
  match d with
  | .obj kvs =>
      match alistLookup kvs "key" with
      | some (.str k) => k = v
      | _ => false
  | _ => false

/-- Whether a stream line is a `data: ` line whose JSON payload is an
object carrying a `model` field. -/
def declaresModel (line : String) : Bool :=
  strStartsWith line "data: " &&
  (match Json.parse (strDrop line 6) with
   | some (.obj kvs) => (alistLookup kvs "model").isSome
   | _ => false)

/-- Whether a parsed JSON value is a dict. -/
def isDict : JVal → Bool
  | .obj _ => true
  | _ => false

/-- The three stream lines of the specification's streaming-parse test. -/
def streamLine1 : String := "data: \x7b\"choices\":[\x7b\"delta\":\x7b\"content\":\"Hi\"\x7d\x7d]\x7d"

def streamLine2 : String := "data: \x7b\"choices\":[\x7b\"delta\":\x7b\"content\":\" there\"\x7d\x7d]\x7d"

def streamLine3 : String := "data: [DONE]"

/-! ## Association-list and string lemmas -/

theorem alistLookup_set_self {α : Type} (l : List (String × α)) (k : String) (v : α) :
    alistLookup (alistSet l k v) k = some v := by
  induction l with
  | nil => simp [alistSet, alistLookup]
  | cons p rest ih =>
      by_cases h : p.1 = k
      · simp [alistSet, alistLookup, h]
      · simpa [alistSet, alistLookup, h] using ih

theorem alistLookup_eq_none {α : Type} (l : List (String × α)) (k : String)
    (h : k ∉ l.map Prod.fst) : alistLookup l k = none := by
  induction l with
  | nil => rfl
  | cons p rest ih =>
      simp only [List.map_cons, List.mem_cons] at h
      push_neg at h
      simp [alistLookup, Ne.symm h.1, ih h.2]

theorem alistLookup_erase_self {α : Type} (l : List (String × α)) (k : String)
    (hnd : (l.map Prod.fst).Nodup) : alistLookup (alistErase l k) k = none := by
  induction l with
  | nil => rfl
  | cons p rest ih =>
      simp only [List.map_cons, List.nodup_cons] at hnd
      by_cases h : p.1 = k
      · simpa [alistErase, h] using alistLookup_eq_none rest k (h ▸ hnd.1)
      · simp [alistErase, alistLookup, h, ih hnd.2]

theorem alistLookup_erase_ne {α : Type} (l : List (String × α)) (k m : String)
    (h : m ≠ k) : alistLookup (alistErase l k) m = alistLookup l m := by
  induction l with
  | nil => rfl
  | cons p rest ih =>
      by_cases hp : p.1 = k
      · simp [alistErase, hp, alistLookup, Ne.symm h]
      · by_cases hm : p.1 = m
        · simp [alistErase, hp, alistLookup, hm, h, Ne.symm h]
        · simp [alistErase, hp, alistLookup, hm, ih]

theorem strStartsWith_append (pre s : String) : strStartsWith (pre ++ s) pre = true := by
  simp only [strStartsWith, String.toList, String.data_append,
    List.isPrefixOf_iff_prefix]
  exact List.prefix_append _ _

theorem strDrop_bearer (v : String) : strDrop ("Bearer " ++ v) 7 = v := by
  simp only [strDrop, String.toList, String.data_append]
  rw [List.drop_left' (by rfl : ("Bearer ").data.length = 7)]

/-! ## Claim C5 -/

/-- C5 counterexample: the claim says a failed turn leaves the conversation
history exactly as it was, but `main` appends the user entry before calling
`send_message` and never removes it: after a failed turn on empty history
the history holds the user entry, so it differs from the pre-turn history. -/
theorem chatTurn_failure_retains_user_entry :
    chatTurn [] "hi" none "gpt-4" "gpt-4" = ([⟨"user", "hi"⟩], "gpt-4") ∧
    ([(⟨"user", "hi"⟩ : ChatMsg)] : List ChatMsg) ≠ [] := by
  exact ⟨rfl, by decide⟩

/-- C5 (amended): for every chat turn whose request fails (`send_message`
returned no text), the history after the turn equals the history before the
turn plus the appended user entry; no assistant entry is appended and the
session model is unchanged. -/
theorem chatTurn_failure_appends_only_user (history : List ChatMsg)
    (userInput : String) (actualModel currentModel : String) :
    chatTurn history userInput none actualModel currentModel =
      (history ++ [⟨"user", userInput⟩], currentModel) := by
  rfl

/-! ## Claim C8 -/

/-- C8 counterexample: the claim says a failing log-file write is
non-fatal, but `Config.add_token` wraps the `data/token.txt` append in no
handler, so the call raises (modelled as `Except.error`); the token had
already been stored and persisted when the append ran. -/
theorem add_token_log_failure_raises :
    add_token [] [] true "work" "tok-123" = .error ([("work", "tok-123")], []) := by
  rfl

/-- C8 (amended): `add_token` upserts the token into the collection and
persists it before appending to the auxiliary log; when the log write
succeeds the raw value is appended, but a log-write failure propagates as
an exception (the operation raises) with the token nevertheless added. -/
theorem add_token_upserts_and_log_write_is_fatal
    (tokens : List (String × String)) (logLines : List String) (name token : String) :
    add_token tokens logLines false name token =
        .ok (alistSet tokens name token, logLines ++ [token]) ∧
    add_token tokens logLines true name token =
        .error (alistSet tokens name token, logLines) ∧
    alistLookup (alistSet tokens name token) name = some token := by
  exact ⟨rfl, rfl, alistLookup_set_self tokens name token⟩

/-! ## Claim C9 -/

/-- C9 (confirmed): a candidate endpoint without an `http://`/`https://`
scheme makes `switch_endpoint` fail with zero probe requests and nothing
persisted; and whenever an endpoint is persisted, it is the (normalized)
candidate and the probe outcome was confirmed-reachable: health returned
200, or health returned 403 and the `/v1/models` fallback returned 403
with `RBAC` in its body. -/
theorem switch_endpoint_validates_and_persists_only_confirmed
    (url : String) (health models : Probe) :
    (strStartsWith url "http://" = false → strStartsWith url "https://" = false →
      switch_endpoint url health models = ⟨false, none, 0⟩) ∧
    ((switch_endpoint url health models).persisted ≠ none →
      (switch_endpoint url health models).persisted = some (normalize_endpoint url) ∧
      ((∃ b, health = .resp 200 b) ∨
       (∃ b b2, health = .resp 403 b ∧ models = .resp 403 b2 ∧
         containsSubstr b2 "RBAC" = true))) := by
  constructor
  · intro h1 h2
    simp [switch_endpoint, h1, h2]
  · intro hp
    by_cases hs : (strStartsWith url "http://" || strStartsWith url "https://") = true
    · rcases health with ⟨code, body⟩ | _ | _ | _
      · by_cases h200 : code = 200
        · subst h200
          exact ⟨by simp [switch_endpoint, hs], Or.inl ⟨body, rfl⟩⟩
        · by_cases h403 : code = 403
          · subst h403
            rcases models with ⟨mcode, mbody⟩ | _ | _ | _
            · by_cases hok : (mcode = 403 && containsSubstr mbody "RBAC") = true
              · have hok' := hok
                rw [Bool.and_eq_true] at hok'
                refine ⟨by simp [switch_endpoint, hs, hok],
                  Or.inr ⟨body, mbody, rfl, ?_, hok'.2⟩⟩
                rw [of_decide_eq_true hok'.1]
              · simp [switch_endpoint, hs, hok] at hp
            · simp [switch_endpoint, hs] at hp
            · simp [switch_endpoint, hs] at hp
            · simp [switch_endpoint, hs] at hp
          · simp [switch_endpoint, hs, h200, h403] at hp
      · simp [switch_endpoint, hs] at hp
      · simp [switch_endpoint, hs] at hp
      · simp [switch_endpoint, hs] at hp
    · simp [switch_endpoint, hs] at hp

/-! ## Claim C10 -/

/-- C10 (confirmed): `remove_token` returns false and changes nothing when
the name is absent; when present it returns true and removes exactly that
entry (the name no longer resolves, every other name resolves as before);
after removing the currently active token the stale active reference makes
`get_active_token` fall back to the first remaining token value, or `None`
when the collection became empty.  Token collections come from Python
dicts, so their names are assumed distinct. -/
theorem remove_token_spec (tokens : List (String × String)) (n : String)
    (hnd : (tokens.map Prod.fst).Nodup) :
    (alistLookup tokens n = none → remove_token tokens n = (false, tokens)) ∧
    (∀ v, alistLookup tokens n = some v →
      remove_token tokens n = (true, alistErase tokens n) ∧
      alistLookup (alistErase tokens n) n = none ∧
      (∀ m, m ≠ n → alistLookup (alistErase tokens n) m = alistLookup tokens m) ∧
      get_active_token (some n) (alistErase tokens n) =
        (match alistErase tokens n with
         | [] => none
         | (_, w) :: _ => some w)) := by
  constructor
  · intro h
    simp [remove_token, h]
  · intro v hv
    refine ⟨by simp [remove_token, hv], alistLookup_erase_self tokens n hnd,
      fun m hm => alistLookup_erase_ne tokens n m hm, ?_⟩
    unfold get_active_token
    by_cases hn : n = ""
    · simp [hn]
    · simp [hn, alistLookup_erase_self tokens n hnd]

/-! ## Claim C3 -/

/-- C3 counterexample: the claim says `generate_apikey` records the string
`"auto"` when the active token reference is unset or null, but with the
`active_token` key present and null (the shipped default configuration)
`config.get('active_token', 'auto')` returns `None`, so the stored
`token_name` is null, not `"auto"`. -/
theorem generate_apikey_null_active_records_null :
    generate_apikey [("active_token", JVal.null)] [] "k1" "R" "2024-01-01" =
      ("sk-R", [("k1", JVal.obj
        [("key", JVal.str "sk-R"), ("created", JVal.str "2024-01-01"),
         ("token_name", JVal.null)])]) ∧
    JVal.null ≠ JVal.str "auto" := by
  exact ⟨rfl, fun h => JVal.noConfusion h⟩

/-- C3 (amended): `generate_apikey` records in the created entry the value
of the configuration's `active_token` key: the active token's name when it
holds a name, the string `"auto"` only when the key is absent, and null
when the key is present with a null value. -/
theorem generate_apikey_records_active_token (cfg apikeys : List (String × JVal))
    (name random created : String) :
    (∀ nm, alistLookup cfg "active_token" = some (.str nm) →
      ∃ kvs, alistLookup (generate_apikey cfg apikeys name random created).2 name =
          some (.obj kvs) ∧ alistLookup kvs "token_name" = some (.str nm)) ∧
    (alistLookup cfg "active_token" = none →
      ∃ kvs, alistLookup (generate_apikey cfg apikeys name random created).2 name =
          some (.obj kvs) ∧ alistLookup kvs "token_name" = some (.str "auto")) ∧
    (alistLookup cfg "active_token" = some .null →
      ∃ kvs, alistLookup (generate_apikey cfg apikeys name random created).2 name =
          some (.obj kvs) ∧ alistLookup kvs "token_name" = some .null) := by
  refine
    ⟨fun nm h =>
      ⟨[("key", .str ("sk-" ++ random)), ("created", .str created),
        ("token_name", .str nm)], ?_, ?_⟩,
     fun h =>
      ⟨[("key", .str ("sk-" ++ random)), ("created", .str created),
        ("token_name", .str "auto")], ?_, ?_⟩,
     fun h =>
      ⟨[("key", .str ("sk-" ++ random)), ("created", .str created),
        ("token_name", .null)], ?_, ?_⟩⟩ <;>
    simp [generate_apikey, h, alistLookup_set_self, alistLookup]

/-! ## Claim C4 -/

/-- C4 (confirmed): an API-key entry created while the configuration's
`active_token` key is present with a null value stores a null `token_name`,
and for every non-empty token collection `map_apikey_to_token` on that
entry's key returns the key unchanged: the middleware's
`data.get('token_name', 'auto')` yields `None` (the `'auto'` default needs
an absent key), which is neither a token name nor the `'auto'` sentinel,
so neither substitution branch fires. -/
theorem generated_key_with_null_active_is_unresolvable
    (cfg apikeys : List (String × JVal)) (name random created : String)
    (toks : List (String × JVal))
    (hnull : alistLookup cfg "active_token" = some .null) (hne : toks ≠ []) :
    ∃ kvs, alistLookup (generate_apikey cfg apikeys name random created).2 name =
        some (.obj kvs) ∧
      alistLookup kvs "token_name" = some .null ∧
      map_apikey_to_token (.obj [(name, .obj kvs)]) (.obj toks)
          (generate_apikey cfg apikeys name random created).1 =
        (generate_apikey cfg apikeys name random created).1 := by
  refine ⟨[("key", .str ("sk-" ++ random)), ("created", .str created),
    ("token_name", .null)], ?_, ?_, ?_⟩
  · simp [generate_apikey, hnull, alistLookup_set_self]
  · simp [alistLookup]
  · simp [generate_apikey, map_apikey_to_token, strStartsWith_append, mapLoop, alistLookup]

/-! ## Claim C6 -/

theorem map_apikey_id_of_not_dict (a t : JVal) (v : String)
    (h : isDict a = false ∨ isDict t = false) :
    map_apikey_to_token a t v = v := by
  unfold map_apikey_to_token
  by_cases hsk : strStartsWith v "sk-" = true
  · cases a <;> cases t <;> simp_all [isDict]
  · simp [hsk]

theorem map_apikey_id_of_empty (t : JVal) (v : String) :
    map_apikey_to_token (.obj []) t v = v := by
  unfold map_apikey_to_token
  by_cases hsk : strStartsWith v "sk-" = true
  · cases t <;> simp [hsk, mapLoop]
  · simp [hsk]

theorem load_mappings_fail_left (s : String) (tkF : Option String)
    (h : Json.parse s = none) : load_mappings (some s) tkF = (.obj [], .obj []) := by
  simp [load_mappings, h]

theorem load_mappings_fail_right (akF : Option String) (s : String)
    (h : Json.parse s = none) : load_mappings akF (some s) = (.obj [], .obj []) := by
  unfold load_mappings
  cases akF with
  | none => simp [h]
  | some s' => cases hp : Json.parse s' <;> simp [h, hp]

theorem dispatch_id_of_map_id (aJ tJ : JVal) (headers : List (String × String))
    (h : String) (hh : headerGet headers "authorization" = some h)
    (hmap : map_apikey_to_token aJ tJ (strDrop h 7) = strDrop h 7) :
    dispatch aJ tJ headers = headers := by
  unfold dispatch
  rw [hh]
  by_cases hb : strStartsWith h "Bearer " = true
  · by_cases hs : strStartsWith (strDrop h 7) "sk-" = true
    · simp [hb, hs, hmap]
    · simp [hb, hs]
  · simp [hb]

/-- C6 (confirmed): for every request carrying a `Bearer sk-` value, if
loading the mapping files fails (either file fails to parse) or searching
them raises (either parsed top-level value is not a dict), the middleware
forwards the request with all headers unchanged — the original
Authorization header is preserved and the request proceeds (`dispatch`
always continues into `call_next` with the returned headers). -/
theorem middleware_fails_open_on_mapping_errors (akFile tkFile : Option String)
    (headers : List (String × String)) (v : String)
    (hh : headerGet headers "authorization" = some ("Bearer " ++ v))
    (hsk : strStartsWith v "sk-" = true)
    (herr : (∃ s, akFile = some s ∧ Json.parse s = none) ∨
            (∃ s, tkFile = some s ∧ Json.parse s = none) ∨
            isDict (load_mappings akFile tkFile).1 = false ∨
            isDict (load_mappings akFile tkFile).2 = false) :
    dispatchFromFiles akFile tkFile headers = headers := by
  have hmap : map_apikey_to_token (load_mappings akFile tkFile).1
      (load_mappings akFile tkFile).2 v = v := by
    rcases herr with ⟨s, hak, hps⟩ | ⟨s, htk, hps⟩ | hnd | hnd
    · rw [hak, load_mappings_fail_left s tkFile hps]
      exact map_apikey_id_of_empty _ v
    · rw [htk, load_mappings_fail_right akFile s hps]
      exact map_apikey_id_of_empty _ v
    · exact map_apikey_id_of_not_dict _ _ v (Or.inl hnd)
    · exact map_apikey_id_of_not_dict _ _ v (Or.inr hnd)
  unfold dispatchFromFiles
  exact dispatch_id_of_map_id _ _ headers _ hh (by rwa [strDrop_bearer])

/-! ## Claim C1 -/

theorem mapLoop_skip (toks : List (String × JVal)) (v : String) (p : String × JVal)
    (rest : List (String × JVal)) (h : entryMatches p.2 v = false) :
    mapLoop toks v (p :: rest) = mapLoop toks v rest := by
  obtain ⟨pn, pd⟩ := p
  cases pd with
  | obj kvs =>
      simp only [entryMatches] at h
      cases hk : alistLookup kvs "key" with
      | none => simp [mapLoop, hk]
      | some jv =>
          rw [hk] at h
          cases jv with
          | str k => simp [mapLoop, hk, of_decide_eq_false h]
          | null => simp [mapLoop, hk]
          | bool b => simp [mapLoop, hk]
          | num l => simp [mapLoop, hk]
          | arr xs => simp [mapLoop, hk]
          | obj kvs2 => simp [mapLoop, hk]
  | null => simp [mapLoop]
  | bool b => simp [mapLoop]
  | num l => simp [mapLoop]
  | str s => simp [mapLoop]
  | arr xs => simp [mapLoop]

theorem mapLoop_no_match (toks : List (String × JVal)) (v : String)
    (aks : List (String × JVal)) (h : ∀ p ∈ aks, entryMatches p.2 v = false) :
    mapLoop toks v aks = v := by
  induction aks with
  | nil => rfl
  | cons p rest ih =>
      rw [mapLoop_skip toks v p rest (h p (by simp))]
      exact ih fun q hq => h q (by simp [hq])

theorem mapLoop_unique_resolve (toks : List (String × JVal)) (v tn tv : String)
    (aks : List (String × JVal)) (nm : String) (kvs : List (String × JVal))
    (hfilter : aks.filter (fun p => entryMatches p.2 v) = [(nm, .obj kvs)])
    (htn : alistLookup kvs "token_name" = some (.str tn))
    (htv : alistLookup toks tn = some (.str tv)) :
    mapLoop toks v aks = tv := by
  induction aks with
  | nil => simp at hfilter
  | cons p rest ih =>
      by_cases hm : entryMatches p.2 v = true
      · rw [List.filter_cons] at hfilter
        simp only [hm, if_true] at hfilter
        injection hfilter with hp1 hrest
        subst hp1
        simp only [entryMatches] at hm
        cases hk : alistLookup kvs "key" with
        | none => rw [hk] at hm; exact absurd hm (by simp)
        | some jv =>
            rw [hk] at hm
            cases jv with
            | str k =>
                have hkv : k = v := of_decide_eq_true hm
                subst hkv
                simp [mapLoop, hk, htn, htv, pyStr]
            | null => exact absurd hm (by simp)
            | bool b => exact absurd hm (by simp)
            | num l => exact absurd hm (by simp)
            | arr xs => exact absurd hm (by simp)
            | obj kvs2 => exact absurd hm (by simp)
      · have hmf : entryMatches p.2 v = false := by simpa using hm
        rw [List.filter_cons] at hfilter
        simp only [hmf, Bool.false_eq_true, if_false] at hfilter
        rw [mapLoop_skip toks v p rest hmf]
        exact ih hfilter

theorem headerGet_rewrite (headers : List (String × String)) (m h : String)
    (hh : headerGet headers "authorization" = some h) :
    headerGet (headers.map (fun p =>
      if pyLower p.1 = "authorization" then (p.1, "Bearer " ++ m) else p))
      "authorization" = some ("Bearer " ++ m) := by
  have hlow : pyLower "authorization" = "authorization" := rfl
  induction headers with
  | nil => simp [headerGet] at hh
  | cons q rest ih =>
      obtain ⟨qn, qv⟩ := q
      simp only [List.map_cons]
      by_cases hq : pyLower qn = "authorization"
      · rw [if_pos hq]
        unfold headerGet
        rw [if_pos (by rw [hlow]; exact hq)]
      · rw [if_neg hq]
        have hh' : headerGet rest "authorization" = some h := by
          unfold headerGet at hh
          rwa [if_neg (by rw [hlow]; exact hq)] at hh
        unfold headerGet
        rw [if_neg (by rw [hlow]; exact hq)]
        exact ih hh'

/-- C1 counterexample: the claim quantifies over "some API-key entry" whose
key matches and whose `token_name` names an existing token, but the loop
substitutes the first resolvable match.  With entry `a` (`token_name`
`auto`) before entry `b` (`token_name` `t2`, naming token `t2` with value
`v2`) and both carrying key `sk-x`, entry `b` satisfies the claim's
premise, yet the forwarded header is `Bearer v1` (the first token, picked
by entry `a`'s `auto`), not `Bearer v2`. -/
theorem middleware_first_match_counterexample :
    alistLookup [("t1", JVal.str "v1"), ("t2", JVal.str "v2")] "t2" =
      some (.str "v2") ∧
    entryMatches (.obj [("key", .str "sk-x"), ("token_name", .str "t2")]) "sk-x" =
      true ∧
    headerGet (dispatch
      (.obj [("a", .obj [("key", .str "sk-x"), ("token_name", .str "auto")]),
             ("b", .obj [("key", .str "sk-x"), ("token_name", .str "t2")])])
      (.obj [("t1", .str "v1"), ("t2", .str "v2")])
      [("authorization", "Bearer sk-x")]) "authorization" = some "Bearer v1" ∧
    ("Bearer v1" : String) ≠ "Bearer v2" := by
  exact ⟨rfl, rfl, rfl, by decide⟩

/-- C1 (amended): when exactly one API-key entry's `key` field equals the
bearer value `v` (so the filter over matching entries is a singleton) and
that entry's `token_name` names an existing token, the forwarded
Authorization header is `Bearer` plus that token's value; when no entry's
key equals `v` the headers pass through unchanged; and when the bearer
value does not start with `sk-` the result is the unchanged headers for
every pair of mapping collections (they are never consulted). -/
theorem middleware_maps_key_to_token (aks toks : List (String × JVal))
    (headers : List (String × String)) (v : String) :
    (∀ nm kvs tn tv,
       aks.filter (fun p => entryMatches p.2 v) = [(nm, .obj kvs)] →
       alistLookup kvs "token_name" = some (.str tn) →
       alistLookup toks tn = some (.str tv) →
       headerGet headers "authorization" = some ("Bearer " ++ v) →
       strStartsWith v "sk-" = true →
       headerGet (dispatch (.obj aks) (.obj toks) headers) "authorization" =
         some ("Bearer " ++ tv)) ∧
    ((∀ p ∈ aks, entryMatches p.2 v = false) →
       headerGet headers "authorization" = some ("Bearer " ++ v) →
       dispatch (.obj aks) (.obj toks) headers = headers) ∧
    (∀ (aJ tJ : JVal) (h : String),
       headerGet headers "authorization" = some h →
       strStartsWith h "Bearer " = true →
       strStartsWith (strDrop h 7) "sk-" = false →
       dispatch aJ tJ headers = headers) := by
  refine ⟨?_, ?_, ?_⟩
  · intro nm kvs tn tv hf htn htv hh hsk
    have hmap : map_apikey_to_token (.obj aks) (.obj toks) v = tv := by
      unfold map_apikey_to_token
      simp only [hsk, Bool.not_true, Bool.false_eq_true, if_false]
      exact mapLoop_unique_resolve toks v tn tv aks nm kvs hf htn htv
    unfold dispatch
    rw [hh]
    simp only [Option.getD_some, strStartsWith_append, if_true, strDrop_bearer,
      hsk, hmap]
    by_cases heq : tv = v
    · subst heq
      simp [hh]
    · simp only [heq, if_false]
      exact headerGet_rewrite headers tv _ hh
  · intro hnone hh
    have hmap : map_apikey_to_token (.obj aks) (.obj toks) (strDrop ("Bearer " ++ v) 7) =
        strDrop ("Bearer " ++ v) 7 := by
      rw [strDrop_bearer]
      unfold map_apikey_to_token
      by_cases hsk : strStartsWith v "sk-" = true
      · simp only [hsk, Bool.not_true, Bool.false_eq_true, if_false]
        exact mapLoop_no_match toks v aks hnone
      · simp [hsk]
    exact dispatch_id_of_map_id _ _ headers _ hh hmap
  · intro aJ tJ h hh hb hs
    unfold dispatch
    rw [hh]
    simp [hb, hs]

/-! ## Claim C2 -/

theorem processLine_skip (r : String) (st : ReaderState) (bad : String)
    (hb : strStartsWith bad "data: " = true) (hd : strDrop bad 6 ≠ "[DONE]")
    (hp : Json.parse (strDrop bad 6) = none) :
    processLine r st bad = .cont st := by
  simp [processLine, hb, hd, hp]

theorem runReader_insert_skip (r : String) (bad : String)
    (hb : strStartsWith bad "data: " = true) (hd : strDrop bad 6 ≠ "[DONE]")
    (hp : Json.parse (strDrop bad 6) = none) :
    ∀ (pre : List String) (st : ReaderState) (post : List String),
      runReader r st (pre ++ bad :: post) = runReader r st (pre ++ post) := by
  intro pre
  induction pre with
  | nil =>
      intro st post
      simp [runReader, processLine_skip r st bad hb hd hp]
  | cons l t ih =>
      intro st post
      simp only [List.cons_append, runReader]
      cases hstep : processLine r st l with
      | cont st2 => exact ih st2 post
      | halt st2 => rfl
      | crash st2 => rfl

/-- C2 counterexample: the sentinel payload `[DONE]` is itself not valid
JSON, yet inserting the line `data: [DONE]` between the two valid delta
lines truncates the stream: only `Hi` is emitted and accumulated, so the
valid lines' increments and accumulated text are not preserved as the
claim requires for every non-JSON payload. -/
theorem streaming_reader_done_insertion_counterexample :
    Json.parse "[DONE]" = none ∧
    strStartsWith "data: [DONE]" "data: " = true ∧
    send_message_stream "m" [streamLine1, "data: [DONE]", streamLine2, streamLine3] =
      ⟨some "Hi", "m", ["Hi"]⟩ ∧
    send_message_stream "m" [streamLine1, streamLine2, streamLine3] =
      ⟨some "Hi there", "m", ["Hi", " there"]⟩ ∧
    (["Hi"] : List String) ≠ ["Hi", " there"] := by
  exact ⟨rfl, rfl, rfl, rfl, by decide⟩

/-- C2 (amended): on the specification's three-line input the reader emits
`Hi` then ` there`, stops at the `[DONE]` sentinel (any further lines are
ignored), and returns the accumulated text `Hi there`; and inserting one
line whose payload is neither the `[DONE]` sentinel nor valid JSON between
two valid delta lines leaves the emitted increments and accumulated text
unchanged. -/
theorem streaming_reader_example_and_tolerance :
    (∀ extra : List String,
       send_message_stream "gpt-3.5-turbo"
           (streamLine1 :: streamLine2 :: streamLine3 :: extra) =
         ⟨some "Hi there", "gpt-3.5-turbo", ["Hi", " there"]⟩) ∧
    (∀ (requested : String) (pre post : List String) (bad : String),
       strStartsWith bad "data: " = true →
       strDrop bad 6 ≠ "[DONE]" →
       Json.parse (strDrop bad 6) = none →
       send_message_stream requested (pre ++ bad :: post) =
         send_message_stream requested (pre ++ post)) := by
  constructor
  · intro extra
    have h1 : processLine "gpt-3.5-turbo" ⟨"", "gpt-3.5-turbo", []⟩ streamLine1 =
        .cont ⟨"Hi", "gpt-3.5-turbo", ["Hi"]⟩ := rfl
    have h2 : processLine "gpt-3.5-turbo" ⟨"Hi", "gpt-3.5-turbo", ["Hi"]⟩ streamLine2 =
        .cont ⟨"Hi there", "gpt-3.5-turbo", ["Hi", " there"]⟩ := rfl
    have h3 : processLine "gpt-3.5-turbo"
        ⟨"Hi there", "gpt-3.5-turbo", ["Hi", " there"]⟩ streamLine3 =
        .halt ⟨"Hi there", "gpt-3.5-turbo", ["Hi", " there"]⟩ := rfl
    unfold send_message_stream
    simp only [runReader, h1, h2, h3]
  · intro requested pre post bad hb hd hp
    unfold send_message_stream
    rw [runReader_insert_skip requested bad hb hd hp pre _ post]

/-! ## Claim C7 -/

theorem extract_actual_model_ne (m requested : String) (h : m ≠ "") :
    extract_actual_model m requested = m := by
  unfold extract_actual_model
  rw [if_neg h]
  by_cases he : m = requested <;> simp [he]

theorem processLine_updates_model (requested : String) (st : ReaderState)
    (line : String) (kvs : List (String × JVal)) (c0 : JVal) (cs : List JVal)
    (m : String)
    (hb : strStartsWith line "data: " = true)
    (hp : Json.parse (strDrop line 6) = some (.obj kvs))
    (hch : alistLookup kvs "choices" = some (.arr (c0 :: cs)))
    (hm : alistLookup kvs "model" = some (.str m))
    (hme : m ≠ "") :
    ((processLine requested st line).state).actualModel = m := by
  by_cases hd : strDrop line 6 = "[DONE]"
  · rw [hd] at hp
    rw [(rfl : Json.parse "[DONE]" = none)] at hp
    cases hp
  · simp only [processLine, hb, if_true, hd, ite_false, hp]
    simp only [stepChunk]
    rw [hch]
    simp only [pyLen, List.length_cons]
    rw [if_neg (Nat.succ_ne_zero cs.length)]
    rw [hm]
    simp only [pyIndexZero]
    have hex := extract_actual_model_ne m requested hme
    cases c0 with
    | obj fkvs =>
        cases hdl : alistLookup fkvs "delta" with
        | none => simp [hdl, StepOut.state, hex]
        | some dv =>
            cases dv with
            | obj dkvs =>
                by_cases ht :
                  pyTruthy ((alistLookup dkvs "content").getD (.str "")) = true
                · cases hcv : (alistLookup dkvs "content").getD (.str "") <;>
                    simp only [hdl, ht, hcv, if_true] <;>
                    first
                      | (split <;> simp [StepOut.state, hex])
                      | simp [StepOut.state, hex]
                · simp [hdl, ht, StepOut.state, hex]
            | null => simp [hdl, StepOut.state, hex]
            | bool b => simp [hdl, StepOut.state, hex]
            | num l => simp [hdl, StepOut.state, hex]
            | str s => simp [hdl, StepOut.state, hex]
            | arr xs => simp [hdl, StepOut.state, hex]
    | null => simp [StepOut.state, hex]
    | bool b => simp [StepOut.state, hex]
    | num l => simp [StepOut.state, hex]
    | str s => simp [StepOut.state, hex]
    | arr xs => simp [StepOut.state, hex]

theorem processLine_preserves_model (r : String) (l : String)
    (hl : declaresModel l = false) (st : ReaderState) :
    ((processLine r st l).state).actualModel = st.actualModel := by
  by_cases hb : strStartsWith l "data: " = true
  · by_cases hd : strDrop l 6 = "[DONE]"
    · simp [processLine, hb, hd, StepOut.state]
    · cases hp : Json.parse (strDrop l 6) with
      | none => simp [processLine, hb, hd, hp, StepOut.state]
      | some j =>
          simp only [processLine, hb, if_true, hd, ite_false, hp]
          cases j with
          | obj kvs =>
              have hmodel : alistLookup kvs "model" = none := by
                simp only [declaresModel, hb, Bool.true_and, hp] at hl
                exact Option.not_isSome_iff_eq_none.mp (by simp [hl])
              simp only [stepChunk]
              cases hc : alistLookup kvs "choices" with
              | none => simp [hc, StepOut.state]
              | some cv =>
                  cases hlen : pyLen cv with
                  | none => simp [hc, hlen, StepOut.state]
                  | some n =>
                      by_cases hn : n = 0
                      · simp [hc, hlen, hn, StepOut.state]
                      · simp only [hc, hlen, hmodel]
                        rw [if_neg hn]
                        cases hz : pyIndexZero cv with
                        | none => simp [hz, StepOut.state]
                        | some first =>
                            cases first with
                            | obj fkvs =>
                                cases hdl : alistLookup fkvs "delta" with
                                | none => simp [hz, hdl, StepOut.state]
                                | some dv =>
                                    cases dv with
                                    | obj dkvs =>
                                        by_cases ht : pyTruthy
                                          ((alistLookup dkvs "content").getD (.str "")) = true
                                        · cases hcv :
                                            (alistLookup dkvs "content").getD (.str "") <;>
                                            simp only [hz, hdl, ht, hcv, if_true] <;>
                                            first
                                              | (split <;> simp [StepOut.state])
                                              | simp [StepOut.state]
                                        · simp [hz, hdl, ht, StepOut.state]
                                    | null => simp [hz, hdl, StepOut.state]
                                    | bool b => simp [hz, hdl, StepOut.state]
                                    | num lx => simp [hz, hdl, StepOut.state]
                                    | str s => simp [hz, hdl, StepOut.state]
                                    | arr xs => simp [hz, hdl, StepOut.state]
                            | null => simp [hz, StepOut.state]
                            | bool b => simp [hz, StepOut.state]
                            | num lx => simp [hz, StepOut.state]
                            | str s => simp [hz, StepOut.state]
                            | arr xs => simp [hz, StepOut.state]
          | str s =>
              by_cases hcs : containsSubstr s "choices" = true <;>
                simp [stepChunk, hcs, StepOut.state]
          | arr xs =>
              by_cases ha : (xs.any (fun x =>
                  match x with | .str s => s = "choices" | _ => false)) = true <;>
                simp [stepChunk, ha, StepOut.state]
          | num lex => simp [stepChunk, StepOut.state]
          | bool b => simp [stepChunk, StepOut.state]
          | null => simp [stepChunk, StepOut.state]
  · simp [processLine, hb, StepOut.state]

theorem runReader_preserves_model (r : String) :
    ∀ (lines : List String) (st : ReaderState),
      (∀ l ∈ lines, declaresModel l = false) →
      ((runReader r st lines).2).actualModel = st.actualModel := by
  intro lines
  induction lines with
  | nil => intro st _; rfl
  | cons l t ih =>
      intro st h
      have hstep := processLine_preserves_model r l (h l (by simp)) st
      simp only [runReader]
      cases hc : processLine r st l with
      | cont st2 =>
          rw [hc] at hstep
          simp only [StepOut.state] at hstep
          rw [ih st2 fun q hq => h q (by simp [hq])]
          exact hstep
      | halt st2 =>
          rw [hc] at hstep
          simpa [StepOut.state] using hstep
      | crash st2 =>
          rw [hc] at hstep
          simpa [StepOut.state] using hstep

/-- C7 counterexample: the claim says every parsed JSON line carrying a
`model` field updates the actual-model value, but the update sits inside
the non-empty-`choices` guard: a parsed line carrying only a `model` field
leaves the returned actual model at the requested value. -/
theorem streaming_model_without_choices_not_updated :
    Json.parse "\x7b\"model\":\"gpt-9\"\x7d" = some (.obj [("model", .str "gpt-9")]) ∧
    send_message_stream "m0" ["data: \x7b\"model\":\"gpt-9\"\x7d"] =
      ⟨some "", "m0", []⟩ ∧
    ("m0" : String) ≠ "gpt-9" := by
  exact ⟨rfl, rfl, by decide⟩

/-- C7 (amended): in streaming mode, for every parsed JSON line carrying a
non-empty string `model` field together with a non-empty `choices` array,
processing the line sets the reader's actual-model value to that field's
value whatever the prior state was (so the last such line wins across the
stream); and the returned actual model equals the originally requested
model when no line declares one. -/
theorem streaming_model_update_and_default :
    (∀ (requested : String) (st : ReaderState) (line : String)
       (kvs : List (String × JVal)) (c0 : JVal) (cs : List JVal) (m : String),
       strStartsWith line "data: " = true →
       Json.parse (strDrop line 6) = some (.obj kvs) →
       alistLookup kvs "choices" = some (.arr (c0 :: cs)) →
       alistLookup kvs "model" = some (.str m) →
       m ≠ "" →
       ((processLine requested st line).state).actualModel = m) ∧
    (∀ (requested : String) (lines : List String),
       (∀ l ∈ lines, declaresModel l = false) →
       (send_message_stream requested lines).model = requested) := by
  constructor
  · exact fun requested st line kvs c0 cs m hb hp hch hm hme =>
      processLine_updates_model requested st line kvs c0 cs m hb hp hch hm hme
  · intro requested lines h
    unfold send_message_stream
    cases hr : runReader requested ⟨"", requested, []⟩ lines with
    | mk crashed stf =>
        cases crashed
        · have hmod := runReader_preserves_model requested lines ⟨"", requested, []⟩ h
          rw [hr] at hmod
          simpa using hmod
        · rfl

/-! ## Witnesses -/

/-- Witness for C1: a uniquely matching key resolves to its token's value,
an unmatched key passes through, and a non-`sk-` bearer passes through. -/
theorem middleware_maps_key_to_token_witness :
    headerGet (dispatch
      (.obj [("a", .obj [("key", .str "sk-k"), ("token_name", .str "t")])])
      (.obj [("t", .str "VAL")])
      [("authorization", "Bearer sk-k")]) "authorization" =
        some ("Bearer " ++ "VAL") ∧
    dispatch (.obj [("a", .obj [("key", .str "sk-other"), ("token_name", .str "t")])])
      (.obj [("t", .str "VAL")]) [("authorization", "Bearer sk-k")] =
      [("authorization", "Bearer sk-k")] ∧
    dispatch (.obj []) (.obj []) [("authorization", "Bearer tok-abc")] =
      [("authorization", "Bearer tok-abc")] := by
  refine ⟨(middleware_maps_key_to_token
      [("a", .obj [("key", .str "sk-k"), ("token_name", .str "t")])]
      [("t", .str "VAL")] [("authorization", "Bearer sk-k")] "sk-k").1
      "a" [("key", .str "sk-k"), ("token_name", .str "t")] "t" "VAL"
      rfl rfl rfl rfl rfl,
    (middleware_maps_key_to_token
      [("a", .obj [("key", .str "sk-other"), ("token_name", .str "t")])]
      [("t", .str "VAL")] [("authorization", "Bearer sk-k")] "sk-k").2.1
      ?_ rfl,
    (middleware_maps_key_to_token [] [] [("authorization", "Bearer tok-abc")]
      "sk-x").2.2 (.obj []) (.obj []) "Bearer tok-abc" rfl rfl rfl⟩
  intro p hp
  simp only [List.mem_singleton] at hp
  subst hp
  rfl

/-- Witness for C2: the three-line example evaluates as stated, and one
inserted non-JSON line between valid lines changes nothing. -/
theorem streaming_reader_example_and_tolerance_witness :
    send_message_stream "gpt-3.5-turbo" [streamLine1, streamLine2, streamLine3] =
      ⟨some "Hi there", "gpt-3.5-turbo", ["Hi", " there"]⟩ ∧
    send_message_stream "m" [streamLine1, "data: oops", streamLine2] =
      send_message_stream "m" [streamLine1, streamLine2] := by
  exact ⟨streaming_reader_example_and_tolerance.1 [],
    streaming_reader_example_and_tolerance.2 "m" [streamLine1] [streamLine2]
      "data: oops" rfl (by decide) rfl⟩

/-- Witness for C3: the three active-token configurations evaluated. -/
theorem generate_apikey_records_active_token_witness :
    (∃ kvs, alistLookup (generate_apikey [("active_token", JVal.str "work")] []
        "k" "R" "c").2 "k" = some (.obj kvs) ∧
      alistLookup kvs "token_name" = some (.str "work")) ∧
    (∃ kvs, alistLookup (generate_apikey [] [] "k" "R" "c").2 "k" =
        some (.obj kvs) ∧
      alistLookup kvs "token_name" = some (.str "auto")) ∧
    (∃ kvs, alistLookup (generate_apikey [("active_token", JVal.null)] []
        "k" "R" "c").2 "k" = some (.obj kvs) ∧
      alistLookup kvs "token_name" = some JVal.null) := by
  exact ⟨(generate_apikey_records_active_token [("active_token", .str "work")]
      [] "k" "R" "c").1 "work" rfl,
    (generate_apikey_records_active_token [] [] "k" "R" "c").2.1 rfl,
    (generate_apikey_records_active_token [("active_token", .null)]
      [] "k" "R" "c").2.2 rfl⟩

/-- Witness for C4: a key generated under a null active token is not
resolvable against the token collection holding one token. -/
theorem generated_key_with_null_active_is_unresolvable_witness :
    ∃ kvs, alistLookup (generate_apikey [("active_token", JVal.null)] []
        "k" "R" "c").2 "k" = some (.obj kvs) ∧
      alistLookup kvs "token_name" = some JVal.null ∧
      map_apikey_to_token (.obj [("k", .obj kvs)]) (.obj [("t", .str "V")])
          (generate_apikey [("active_token", JVal.null)] [] "k" "R" "c").1 =
        (generate_apikey [("active_token", JVal.null)] [] "k" "R" "c").1 :=
  generated_key_with_null_active_is_unresolvable [("active_token", .null)] []
    "k" "R" "c" [("t", .str "V")] rfl (List.cons_ne_nil _ _)

/-- Witness for C6: a corrupt apikeys file leaves the request unchanged. -/
theorem middleware_fails_open_on_mapping_errors_witness :
    dispatchFromFiles (some "\x7bbad") none [("authorization", "Bearer sk-abc")] =
      [("authorization", "Bearer sk-abc")] :=
  middleware_fails_open_on_mapping_errors (some "\x7bbad") none
    [("authorization", "Bearer sk-abc")] "sk-abc" rfl rfl
    (Or.inl ⟨"\x7bbad", rfl, rfl⟩)

/-- Witness for C7: a chunk with model and non-empty choices updates the
actual model; a stream with no model declaration keeps the requested one. -/
theorem streaming_model_update_and_default_witness :
    ((processLine "m0" ⟨"", "m0", []⟩
        "data: \x7b\"model\":\"gpt-9\",\"choices\":[\x7b\x7d]\x7d").state).actualModel =
      "gpt-9" ∧
    (send_message_stream "m0" ["data: hello"]).model = "m0" := by
  exact ⟨streaming_model_update_and_default.1 "m0" ⟨"", "m0", []⟩
      "data: \x7b\"model\":\"gpt-9\",\"choices\":[\x7b\x7d]\x7d"
      [("model", .str "gpt-9"), ("choices", .arr [.obj []])] (.obj []) [] "gpt-9"
      rfl rfl rfl rfl (by decide),
    streaming_model_update_and_default.2 "m0" ["data: hello"] (by decide)⟩

/-- Witness for C9: a schemeless candidate fails with zero calls; the
RBAC fallback persists the normalized endpoint. -/
theorem switch_endpoint_validates_witness :
    switch_endpoint "ftp://example" (.resp 200 "ok") (.resp 200 "ok") =
      ⟨false, none, 0⟩ ∧
    (switch_endpoint "https://example" (.resp 403 "denied")
        (.resp 403 "RBAC enabled")).persisted =
      some (normalize_endpoint "https://example") := by
  exact ⟨(switch_endpoint_validates_and_persists_only_confirmed "ftp://example"
      (.resp 200 "ok") (.resp 200 "ok")).1 rfl rfl,
    ((switch_endpoint_validates_and_persists_only_confirmed "https://example"
      (.resp 403 "denied") (.resp 403 "RBAC enabled")).2 (by decide)).1⟩

/-- Witness for C10: removing an absent name, then removing the active
token `a` and resolving the stale reference to the first remaining value. -/
theorem remove_token_spec_witness :
    remove_token [("a", "va"), ("b", "vb")] "zz" =
      (false, [("a", "va"), ("b", "vb")]) ∧
    remove_token [("a", "va"), ("b", "vb")] "a" =
      (true, alistErase [("a", "va"), ("b", "vb")] "a") ∧
    get_active_token (some "a") (alistErase [("a", "va"), ("b", "vb")] "a") =
      some "vb" := by
  refine ⟨(remove_token_spec [("a", "va"), ("b", "vb")] "zz" (by decide)).1 rfl,
    ?_, ?_⟩
  · exact ((remove_token_spec [("a", "va"), ("b", "vb")] "a" (by decide)).2
      "va" rfl).1
  · exact ((remove_token_spec [("a", "va"), ("b", "vb")] "a" (by decide)).2
      "va" rfl).2.2.2

end Chat2API
